import Mathlib

/-!
Formal model of the gesture-classification and scene-transition core of
the luoluo interactive tree scene. The embedded operations are the hand
gesture classifier of `HandTracker.predictWebcam`, the scene state
machine of `App.handleHandUpdate`, the per-frame transition controllers
of `Foliage.useFrame` and `Ornaments.useFrame`, and the dual-position
blenders of `Ornaments.updateMesh` and the Foliage vertex shader.
Coordinates, times and progress values are modelled as rationals.
-/

namespace Luoluo

/-- A 2D landmark point in normalized image coordinates. -/
structure Pt where
  x : ℚ
  y : ℚ
deriving DecidableEq

/-- A well-formed hand landmark set: 21 points, the wrist at index 0,
as produced by the hand landmarker (`results.landmarks[0]`). -/
abbrev Landmarks : Type := Fin 21 → Pt

/-- Gesture labels, from `types.ts`. -/
inductive HandGesture where
  | NONE
  | OPEN
  | CLOSED
  | ONE
deriving DecidableEq

/-- Scene states, from `types.ts`; `TREE_SHAPE` is the assembled state. -/
inductive TreeState where
  | SCATTERED
  | TREE_SHAPE
deriving DecidableEq

/-- Squared 2D distance. `predictWebcam`'s `isExtended` compares
`Math.hypot` distances from the wrist; the square root is strictly
monotone on nonnegative reals, so comparing the squared distances is
equivalent and keeps the model inside ℚ. -/
def dist2 (p q : Pt) : ℚ :=
  (p.x - q.x) ^ 2 + (p.y - q.y) ^ 2

/-- `isExtended` from `predictWebcam`: a finger counts as extended when
its tip landmark is farther from the wrist (landmark 0) than its base
landmark is. -/
def isExtended (lm : Landmarks) (tipIdx baseIdx : Fin 21) : Bool :=
  decide (dist2 (lm tipIdx) (lm 0) > dist2 (lm baseIdx) (lm 0))

/-- `mainFingersOpenCount` from `predictWebcam`: how many of the four
non-thumb fingers are extended. -/
def mainFingersOpenCount (indexOpen middleOpen ringOpen pinkyOpen : Bool) : ℕ :=
  ([indexOpen, middleOpen, ringOpen, pinkyOpen].filter id).length

/-- `totalOpenCount` from `predictWebcam`: the extended-finger count
over all five fingers, thumb included. -/
def totalOpenCount (thumbOpen indexOpen middleOpen ringOpen pinkyOpen : Bool) : ℕ :=
  mainFingersOpenCount indexOpen middleOpen ringOpen pinkyOpen + (if thumbOpen then 1 else 0)

/-- The ONE branch condition of `predictWebcam`: index extended, the
middle, ring and pinky fingers not. -/
def condONE (indexOpen middleOpen ringOpen pinkyOpen : Bool) : Bool :=
  indexOpen && !middleOpen && !ringOpen && !pinkyOpen

/-- The OPEN branch condition of `predictWebcam`: at least four of the
five fingers extended. -/
def condOPEN (thumbOpen indexOpen middleOpen ringOpen pinkyOpen : Bool) : Bool :=
  decide (4 ≤ totalOpenCount thumbOpen indexOpen middleOpen ringOpen pinkyOpen)

/-- The CLOSED branch condition of `predictWebcam`: at most one finger
extended in total and the index not extended. -/
def condCLOSED (thumbOpen indexOpen middleOpen ringOpen pinkyOpen : Bool) : Bool :=
  decide (totalOpenCount thumbOpen indexOpen middleOpen ringOpen pinkyOpen ≤ 1) && !indexOpen

/-- The gesture decision of `predictWebcam` over the five per-finger
extension flags, branches tested in source order: ONE, OPEN, CLOSED. -/
def classifyFlags (thumbOpen indexOpen middleOpen ringOpen pinkyOpen : Bool) : HandGesture :=
  if condONE indexOpen middleOpen ringOpen pinkyOpen then HandGesture.ONE
  else if condOPEN thumbOpen indexOpen middleOpen ringOpen pinkyOpen then HandGesture.OPEN
  else if condCLOSED thumbOpen indexOpen middleOpen ringOpen pinkyOpen then HandGesture.CLOSED
  else HandGesture.NONE

/-- The full gesture classifier of `predictWebcam`, with the fixed
tip/base landmark pairs thumb (4,2), index (8,6), middle (12,10),
ring (16,14), pinky (20,18). -/
def classify (lm : Landmarks) : HandGesture :=
  classifyFlags (isExtended lm 4 2) (isExtended lm 8 6) (isExtended lm 12 10)
    (isExtended lm 16 14) (isExtended lm 20 18)

/-- The hand sample of `types.ts` (`HandData`), the normalized position
split into its two coordinates. -/
structure HandData where
  gesture : HandGesture
  posX : ℚ
  posY : ℚ
  isDetected : Bool
deriving DecidableEq

/-- Palm position from `predictWebcam`: the wrist x-coordinate is
mirrored (`1 - x`) and both axes are remapped from [0,1] to [-1,1]. -/
def palmPosition (lm : Landmarks) : ℚ × ℚ :=
  let palmX := 1 - (lm 0).x
  let palmY := (lm 0).y
  ((palmX - 1/2) * 2, (palmY - 1/2) * 2)

/-- One detection result handled as in `predictWebcam`: with no hand the
NONE sample at the origin is emitted, with a hand its gesture and palm
position. -/
def processFrame : Option Landmarks → HandData
  | none => ⟨HandGesture.NONE, 0, 0, false⟩
  | some lm => ⟨classify lm, (palmPosition lm).1, (palmPosition lm).2, true⟩

/-- `handleHandUpdate` in `App.tsx`, restricted to its scene-state
effect: OPEN targets SCATTERED, CLOSED targets TREE_SHAPE, each only
when the state differs; other gestures leave the state alone. -/
def handleHandUpdate (s : TreeState) (g : HandGesture) : TreeState :=
  match g with
  | HandGesture.OPEN => if s ≠ TreeState.SCATTERED then TreeState.SCATTERED else s
  | HandGesture.CLOSED => if s ≠ TreeState.TREE_SHAPE then TreeState.TREE_SHAPE else s
  | _ => s

/-- The initial scene state in `App.tsx` (`useState(TreeState.SCATTERED)`). -/
def initialTreeState : TreeState := TreeState.SCATTERED

/-- How many state transitions a gesture stream performs when folded
through `handleHandUpdate`. -/
def transCount (s : TreeState) : List HandGesture → ℕ
  | [] => 0
  | g :: gs =>
    (if handleHandUpdate s g ≠ s then 1 else 0) + transCount (handleHandUpdate s g) gs

/-- The transition speed constant of `Foliage.useFrame`. -/
def foliageSpeed : ℚ := 3/2

/-- The per-frame progress update of `Foliage.useFrame`: outside the
0.001 band around the target, step by `direction * delta * speed` and
clamp at the end the step moves toward. -/
def foliageUpdate (progress target delta : ℚ) : ℚ :=
  if |progress - target| > 1/1000 then
    let direction : ℚ := if target > progress then 1 else -1
    let p1 := progress + direction * delta * foliageSpeed
    let p2 := if direction = 1 ∧ p1 > 1 then 1 else p1
    if direction = -1 ∧ p2 < 0 then 0 else p2
  else progress

/-- The animation speed constant of `Ornaments.useFrame`. -/
def ornamentsSpeed : ℚ := 1

/-- The per-frame progress update of `Ornaments.useFrame`: outside the
0.001 band, step by `diff * delta * speed`, with no clamping. -/
def ornamentsUpdate (progress target delta : ℚ) : ℚ :=
  let diff := target - progress
  if |diff| > 1/1000 then progress + diff * delta * ornamentsSpeed else progress

/-- `easeInOutCubic` from the Foliage vertex shader. -/
def easeInOutCubic (x : ℚ) : ℚ :=
  if x < 1/2 then 4 * x * x * x else 1 - (-2 * x + 2) ^ 3 / 2

/-- `easeT` from `Ornaments.useFrame`. -/
def ornamentsEase (t : ℚ) : ℚ :=
  if t < 1/2 then 2 * t * t else -1 + (4 - 2 * t) * t

/-- The cubic ease-in-out formula exactly as the spec states it, kept
separate from the shader's `easeInOutCubic` for the refinement claim. -/
def specCubicEase (t : ℚ) : ℚ :=
  if t < 1/2 then 4 * t ^ 3 else 1 - (-2 * t + 2) ^ 3 / 2

/-- The spec's per-frame controller update, kept separate for the
refinement claim: sign step with an epsilon snap and a clamp to [0,1]. -/
def specUpdate (progress target delta speed : ℚ) : ℚ :=
  if |target - progress| ≤ 1/1000 then progress
  else
    let direction : ℚ := if progress < target then 1 else if target < progress then -1 else 0
    min 1 (max 0 (progress + direction * delta * speed))

/-- `THREE.MathUtils.lerp`. -/
def lerp (x y t : ℚ) : ℚ := (1 - t) * x + t * y

/-- GLSL `mix`, as used by the Foliage vertex shader. -/
def mixGLSL (a b t : ℚ) : ℚ := a * (1 - t) + b * t

/-- `DualPosition` from `types.ts`: the per-object immutable dual pose. -/
structure DualPosition where
  tree : ℚ × ℚ × ℚ
  scatter : ℚ × ℚ × ℚ
  rotation : ℚ × ℚ × ℚ
  scale : ℚ
  speed : ℚ
deriving DecidableEq

/-- The blended instance position computed by `updateMesh` in
`Ornaments.useFrame` at a given eased progress; the secondary rotation
motion is excluded. -/
def blendedPosition (d : DualPosition) (easeT : ℚ) : ℚ × ℚ × ℚ :=
  (lerp d.scatter.1 d.tree.1 easeT,
   lerp d.scatter.2.1 d.tree.2.1 easeT,
   lerp d.scatter.2.2 d.tree.2.2 easeT)

/-- The particle position computed by the Foliage vertex shader at a
given `uProgress`, the additive floating terms (secondary motion)
excluded. -/
def foliagePos (scatterPos treePos : ℚ × ℚ × ℚ) (uProgress : ℚ) : ℚ × ℚ × ℚ :=
  (mixGLSL scatterPos.1 treePos.1 (easeInOutCubic uProgress),
   mixGLSL scatterPos.2.1 treePos.2.1 (easeInOutCubic uProgress),
   mixGLSL scatterPos.2.2 treePos.2.2 (easeInOutCubic uProgress))

/-- Events the hand tracker reacts to: the enable/disable effect in
`HandTracker` and one processed video frame. -/
inductive TrackerEvent where
  | enable
  | disable
  | frame (detection : Option Landmarks)

/-- The hand sample `HandTracker` emits on disable. -/
def resetSample : HandData := ⟨HandGesture.NONE, 0, 0, false⟩

/-- One tracker step: `disable` runs `stopWebcam` and emits the reset
sample in the same tick; a `frame` is processed only while enabled,
since `predictWebcam` returns immediately when `isEnabled` is false. -/
def trackerStep (isEnabled : Bool) : TrackerEvent → Bool × Option HandData
  | TrackerEvent.enable => (true, none)
  | TrackerEvent.disable => (false, some resetSample)
  | TrackerEvent.frame d => if isEnabled then (true, some (processFrame d)) else (false, none)

/-- All hand samples emitted while folding an event sequence. -/
def trackerRun (isEnabled : Bool) : List TrackerEvent → List HandData
  | [] => []
  | e :: es =>
    ((trackerStep isEnabled e).2).toList ++ trackerRun (trackerStep isEnabled e).1 es

/-- Repeated Foliage updates toward target 1, one per frame delta. -/
def foliageRun (p : ℚ) : List ℚ → ℚ
  | [] => p
  | d :: ds => foliageRun (foliageUpdate p 1 d) ds

/-- A landmark set with every point at the origin: no finger extended. -/
def originLandmarks : Landmarks := fun _ => ⟨0, 0⟩

/-- A landmark set with the wrist at the image center, the index tip far
from the wrist, the index base close to it, and every other point on the
wrist: only the index finger is extended. -/
def centerOneLandmarks : Landmarks := fun i =>
  if i.val = 8 then ⟨1/2, 0⟩
  else if i.val = 6 then ⟨1/2, 2/5⟩
  else ⟨1/2, 1/2⟩

/-- A landmark set in which exactly the thumb and the middle finger are
extended: thumb tip and middle tip far from the wrist, their bases
close, everything else on the wrist. -/
def thumbMiddleLandmarks : Landmarks := fun i =>
  if i.val = 4 then ⟨1, 0⟩
  else if i.val = 2 then ⟨1/10, 0⟩
  else if i.val = 12 then ⟨0, 1⟩
  else if i.val = 10 then ⟨0, 1/10⟩
  else ⟨0, 0⟩

/-- The three gesture branch conditions of `predictWebcam` tested in the
opposite order, used to show the returned label does not depend on the
order the branches are tested in. -/
def classifyFlagsAlt (thumbOpen indexOpen middleOpen ringOpen pinkyOpen : Bool) : HandGesture :=
  if condCLOSED thumbOpen indexOpen middleOpen ringOpen pinkyOpen then HandGesture.CLOSED
  else if condOPEN thumbOpen indexOpen middleOpen ringOpen pinkyOpen then HandGesture.OPEN
  else if condONE indexOpen middleOpen ringOpen pinkyOpen then HandGesture.ONE
  else HandGesture.NONE

lemma classifyFlags_closed (t i m r p : Bool)
    (h1 : totalOpenCount t i m r p ≤ 1) (h2 : i = false) :
    classifyFlags t i m r p = HandGesture.CLOSED := by
  revert t i m r p
  decide

lemma classifyFlags_one (t : Bool) :
    classifyFlags t true false false false = HandGesture.ONE := by
  revert t
  decide

/-- C1 counterexample: in `thumbMiddleLandmarks` only the middle finger
among the four non-thumb fingers is extended and the index is not, yet
the classifier returns NONE, not CLOSED — the thumb is extended too, so
the code's `totalOpenCount <= 1` test fails. -/
theorem C1_counterexample :
    mainFingersOpenCount (isExtended thumbMiddleLandmarks 8 6)
      (isExtended thumbMiddleLandmarks 12 10) (isExtended thumbMiddleLandmarks 16 14)
      (isExtended thumbMiddleLandmarks 20 18) ≤ 1
    ∧ isExtended thumbMiddleLandmarks 8 6 = false
    ∧ classify thumbMiddleLandmarks = HandGesture.NONE
    ∧ classify thumbMiddleLandmarks ≠ HandGesture.CLOSED := by
  have h4 : isExtended thumbMiddleLandmarks 4 2 = true := by
    norm_num [isExtended, dist2, show thumbMiddleLandmarks 4 = ⟨1, 0⟩ from rfl,
      show thumbMiddleLandmarks 2 = ⟨1/10, 0⟩ from rfl,
      show thumbMiddleLandmarks 0 = ⟨0, 0⟩ from rfl]
  have h8 : isExtended thumbMiddleLandmarks 8 6 = false := by
    norm_num [isExtended, dist2, show thumbMiddleLandmarks 8 = ⟨0, 0⟩ from rfl,
      show thumbMiddleLandmarks 6 = ⟨0, 0⟩ from rfl,
      show thumbMiddleLandmarks 0 = ⟨0, 0⟩ from rfl]
  have h12 : isExtended thumbMiddleLandmarks 12 10 = true := by
    norm_num [isExtended, dist2, show thumbMiddleLandmarks 12 = ⟨0, 1⟩ from rfl,
      show thumbMiddleLandmarks 10 = ⟨0, 1/10⟩ from rfl,
      show thumbMiddleLandmarks 0 = ⟨0, 0⟩ from rfl]
  have h16 : isExtended thumbMiddleLandmarks 16 14 = false := by
    norm_num [isExtended, dist2, show thumbMiddleLandmarks 16 = ⟨0, 0⟩ from rfl,
      show thumbMiddleLandmarks 14 = ⟨0, 0⟩ from rfl,
      show thumbMiddleLandmarks 0 = ⟨0, 0⟩ from rfl]
  have h20 : isExtended thumbMiddleLandmarks 20 18 = false := by
    norm_num [isExtended, dist2, show thumbMiddleLandmarks 20 = ⟨0, 0⟩ from rfl,
      show thumbMiddleLandmarks 18 = ⟨0, 0⟩ from rfl,
      show thumbMiddleLandmarks 0 = ⟨0, 0⟩ from rfl]
  refine ⟨?_, h8, ?_, ?_⟩
  · rw [h8, h12, h16, h20]
    decide
  · unfold classify
    rw [h4, h8, h12, h16, h20]
    decide
  · unfold classify
    rw [h4, h8, h12, h16, h20]
    decide

/-- C1 (amended): for every well-formed landmark set in which the total
number of extended fingers over all five fingers, thumb included, is at
most one and the index finger is not extended, the classifier returns
CLOSED. -/
theorem C1_amended (lm : Landmarks)
    (h1 : totalOpenCount (isExtended lm 4 2) (isExtended lm 8 6) (isExtended lm 12 10)
      (isExtended lm 16 14) (isExtended lm 20 18) ≤ 1)
    (h2 : isExtended lm 8 6 = false) :
    classify lm = HandGesture.CLOSED :=
  classifyFlags_closed _ _ _ _ _ h1 h2

/-- C1 witness: the all-origin landmark set has no extended finger and
is classified CLOSED. -/
theorem C1_witness :
    totalOpenCount (isExtended originLandmarks 4 2) (isExtended originLandmarks 8 6)
      (isExtended originLandmarks 12 10) (isExtended originLandmarks 16 14)
      (isExtended originLandmarks 20 18) ≤ 1
    ∧ isExtended originLandmarks 8 6 = false
    ∧ classify originLandmarks = HandGesture.CLOSED := by
  have h : ∀ a b : Fin 21, isExtended originLandmarks a b = false := by
    intro a b
    norm_num [isExtended, dist2, originLandmarks]
  refine ⟨?_, h 8 6, C1_amended originLandmarks ?_ (h 8 6)⟩
  · simp only [h]
    decide
  · simp only [h]
    decide

/-- C5: for every well-formed landmark set whose index finger passes the
(8,6) extension test while middle, ring and pinky fail theirs, the
classifier returns ONE, whatever the thumb's state: the ONE branch is
tested first in `predictWebcam`. -/
theorem C5_theorem (lm : Landmarks)
    (h1 : isExtended lm 8 6 = true) (h2 : isExtended lm 12 10 = false)
    (h3 : isExtended lm 16 14 = false) (h4 : isExtended lm 20 18 = false) :
    classify lm = HandGesture.ONE := by
  unfold classify
  rw [h1, h2, h3, h4]
  exact classifyFlags_one _

/-- C5 witness: the landmark set with only the index extended is
classified ONE. -/
theorem C5_witness :
    isExtended centerOneLandmarks 8 6 = true
    ∧ classify centerOneLandmarks = HandGesture.ONE := by
  have h8 : isExtended centerOneLandmarks 8 6 = true := by
    norm_num [isExtended, dist2, show centerOneLandmarks 8 = ⟨1/2, 0⟩ from rfl,
      show centerOneLandmarks 6 = ⟨1/2, 2/5⟩ from rfl,
      show centerOneLandmarks 0 = ⟨1/2, 1/2⟩ from rfl]
  have h12 : isExtended centerOneLandmarks 12 10 = false := by
    norm_num [isExtended, dist2, show centerOneLandmarks 12 = ⟨1/2, 1/2⟩ from rfl,
      show centerOneLandmarks 10 = ⟨1/2, 1/2⟩ from rfl,
      show centerOneLandmarks 0 = ⟨1/2, 1/2⟩ from rfl]
  have h16 : isExtended centerOneLandmarks 16 14 = false := by
    norm_num [isExtended, dist2, show centerOneLandmarks 16 = ⟨1/2, 1/2⟩ from rfl,
      show centerOneLandmarks 14 = ⟨1/2, 1/2⟩ from rfl,
      show centerOneLandmarks 0 = ⟨1/2, 1/2⟩ from rfl]
  have h20 : isExtended centerOneLandmarks 20 18 = false := by
    norm_num [isExtended, dist2, show centerOneLandmarks 20 = ⟨1/2, 1/2⟩ from rfl,
      show centerOneLandmarks 18 = ⟨1/2, 1/2⟩ from rfl,
      show centerOneLandmarks 0 = ⟨1/2, 1/2⟩ from rfl]
  exact ⟨h8, C5_theorem centerOneLandmarks h8 h12 h16 h20⟩

/-- C10: the three gesture branch conditions of `predictWebcam` are
pairwise mutually exclusive over every combination of the five finger
flags, and testing the branches in the opposite order returns the same
label. -/
theorem C10_theorem :
    ∀ t i m r p : Bool,
      (condONE i m r p && condOPEN t i m r p) = false
      ∧ (condONE i m r p && condCLOSED t i m r p) = false
      ∧ (condOPEN t i m r p && condCLOSED t i m r p) = false
      ∧ classifyFlags t i m r p = classifyFlagsAlt t i m r p := by
  decide

lemma transCount_closed_tree (m : ℕ) :
    transCount TreeState.TREE_SHAPE (List.replicate m HandGesture.CLOSED) = 0 := by
  induction m with
  | zero => rfl
  | succ k ih => simpa [List.replicate_succ, transCount, handleHandUpdate] using ih

/-- C4: the scene state machine maps OPEN to SCATTERED when the state
differs, CLOSED to TREE_SHAPE (the assembled state) when the state
differs, ignores ONE and NONE, and from the initial SCATTERED state a
run of n consecutive CLOSED samples performs exactly one transition. -/
theorem C4_theorem :
    (∀ s : TreeState, s ≠ TreeState.SCATTERED →
      handleHandUpdate s HandGesture.OPEN = TreeState.SCATTERED)
    ∧ (∀ s : TreeState, s ≠ TreeState.TREE_SHAPE →
      handleHandUpdate s HandGesture.CLOSED = TreeState.TREE_SHAPE)
    ∧ (∀ s : TreeState, handleHandUpdate s HandGesture.ONE = s
      ∧ handleHandUpdate s HandGesture.NONE = s)
    ∧ (∀ n : ℕ, 1 ≤ n →
      transCount initialTreeState (List.replicate n HandGesture.CLOSED) = 1) := by
  refine ⟨?_, ?_, ?_, ?_⟩
  · intro s hs
    cases s with
    | SCATTERED => exact absurd rfl hs
    | TREE_SHAPE => decide
  · intro s hs
    cases s with
    | SCATTERED => decide
    | TREE_SHAPE => exact absurd rfl hs
  · intro s
    cases s <;> exact ⟨by decide, by decide⟩
  intro n hn
  obtain ⟨m, rfl⟩ : ∃ m, n = m + 1 := ⟨n - 1, by omega⟩
  simp [List.replicate_succ, transCount, handleHandUpdate, initialTreeState,
    transCount_closed_tree]

/-- C4 witness: from TREE_SHAPE an OPEN sample scatters, and three
consecutive CLOSED samples from the initial state transition once. -/
theorem C4_witness :
    handleHandUpdate TreeState.TREE_SHAPE HandGesture.OPEN = TreeState.SCATTERED
    ∧ handleHandUpdate TreeState.SCATTERED HandGesture.CLOSED = TreeState.TREE_SHAPE
    ∧ transCount initialTreeState (List.replicate 3 HandGesture.CLOSED) = 1 :=
  ⟨C4_theorem.1 TreeState.TREE_SHAPE (by decide),
   C4_theorem.2.1 TreeState.SCATTERED (by decide),
   C4_theorem.2.2.2 3 (by norm_num)⟩

/-- C8: for every detected hand the reported palm position is the
mirrored-and-remapped wrist position, computed uniformly whatever
gesture the classifier returns; at the centered wrist (1/2, 1/2) it is
(0, 0), where the classifier returns ONE. -/
theorem C8_theorem :
    (∀ lm : Landmarks,
      (processFrame (some lm)).posX = (1 - (lm 0).x - 1/2) * 2
      ∧ (processFrame (some lm)).posY = ((lm 0).y - 1/2) * 2)
    ∧ (processFrame (some centerOneLandmarks)).posX = 0
    ∧ (processFrame (some centerOneLandmarks)).posY = 0 := by
  have hall : ∀ lm : Landmarks,
      (processFrame (some lm)).posX = (1 - (lm 0).x - 1/2) * 2
      ∧ (processFrame (some lm)).posY = ((lm 0).y - 1/2) * 2 := by
    intro lm
    constructor
    · show ((1 - (lm 0).x) - 1/2) * 2 = (1 - (lm 0).x - 1/2) * 2
      ring
    · rfl
  refine ⟨hall, ?_, ?_⟩
  · rw [(hall centerOneLandmarks).1, show centerOneLandmarks 0 = ⟨1/2, 1/2⟩ from rfl]
    norm_num
  · rw [(hall centerOneLandmarks).2, show centerOneLandmarks 0 = ⟨1/2, 1/2⟩ from rfl]
    norm_num

/-- C9: disabling the camera emits the {NONE, (0,0), false} sample in
the same step and leaves the tracker disabled; a frame with no detected
hand also yields that sample; and while disabled, no frame emits any
sample, so no stale gesture reaches the scene state. -/
theorem C9_theorem :
    (∀ b : Bool, trackerStep b TrackerEvent.disable = (false, some resetSample))
    ∧ resetSample = ⟨HandGesture.NONE, 0, 0, false⟩
    ∧ processFrame none = resetSample
    ∧ (∀ ds : List (Option Landmarks),
      trackerRun false (ds.map TrackerEvent.frame) = []) := by
  refine ⟨fun b => rfl, rfl, rfl, ?_⟩
  intro ds
  induction ds with
  | nil => rfl
  | cons d rest ih => simpa [trackerRun, trackerStep] using ih

lemma ornamentsEase_zero : ornamentsEase 0 = 0 := by
  norm_num [ornamentsEase]

lemma ornamentsEase_one : ornamentsEase 1 = 1 := by
  norm_num [ornamentsEase]

lemma easeInOutCubic_zero : easeInOutCubic 0 = 0 := by
  norm_num [easeInOutCubic]

lemma easeInOutCubic_one : easeInOutCubic 1 = 1 := by
  norm_num [easeInOutCubic]

/-- C6: at progress 0 the blended position of every dual pose is exactly
its scattered position and at progress 1 exactly its tree (assembled)
position, both for the Ornaments instanced meshes and for the Foliage
shader particles, secondary motion excluded. -/
theorem C6_theorem :
    (∀ d : DualPosition, blendedPosition d (ornamentsEase 0) = d.scatter
      ∧ blendedPosition d (ornamentsEase 1) = d.tree)
    ∧ (∀ s t : ℚ × ℚ × ℚ, foliagePos s t 0 = s ∧ foliagePos s t 1 = t) := by
  constructor
  · intro d
    constructor
    · rw [ornamentsEase_zero]
      simp [blendedPosition, lerp]
    · rw [ornamentsEase_one]
      simp [blendedPosition, lerp]
  · intro s t
    constructor
    · simp [foliagePos, mixGLSL, easeInOutCubic_zero]
    · simp [foliagePos, mixGLSL, easeInOutCubic_one]

/-- C2 (amended): the Foliage shader's `easeInOutCubic` equals the
spec's cubic ease-in-out formula at every progress value; the Ornaments
controller's ease is a different, quadratic one (see the
counterexample). -/
theorem C2_theorem : ∀ t : ℚ, easeInOutCubic t = specCubicEase t := by
  intro t
  unfold easeInOutCubic specCubicEase
  split_ifs with h <;> ring

/-- C2 counterexample: at progress 1/4 the Ornaments ease yields 1/8
while the cubic ease-in-out yields 1/16, so the Ornaments controller's
eased progress is not the cubic ease-in-out. -/
theorem C2_counterexample :
    ornamentsEase (1/4) = 1/8 ∧ specCubicEase (1/4) = 1/16
    ∧ ornamentsEase (1/4) ≠ specCubicEase (1/4) := by
  norm_num [ornamentsEase, specCubicEase]

lemma foliageSpeed_nonneg : (0:ℚ) ≤ foliageSpeed := by
  norm_num [foliageSpeed]

lemma foliageUpdate_target_one (p d : ℚ) (hp1 : p ≤ 1) (_hd : 0 ≤ d) :
    foliageUpdate p 1 d = if p < 999/1000 then min 1 (p + d * foliageSpeed) else p := by
  have habs : |p - (1:ℚ)| = 1 - p := by
    rw [abs_of_nonpos (by linarith)]
    ring
  by_cases hlt : p < 999/1000
  · have hg : |p - (1:ℚ)| > 1/1000 := by
      rw [habs]
      linarith
    have hdir : (1:ℚ) > p := by linarith
    simp only [foliageUpdate, if_pos hg, if_pos hdir, if_pos hlt,
      eq_self_iff_true, true_and, eq_false (by norm_num : (1:ℚ) ≠ -1), false_and, if_false]
    rcases le_or_lt (p + 1 * d * foliageSpeed) 1 with hc | hc
    · rw [if_neg (not_lt.mpr hc), min_eq_right (by linarith)]
      ring
    · rw [if_pos hc, min_eq_left (by linarith)]
  · have hg : ¬(|p - (1:ℚ)| > 1/1000) := by
      rw [habs]
      exact not_lt.mpr (by linarith)
    simp only [foliageUpdate, if_neg hg, if_neg hlt]

lemma foliageUpdate_target_zero (p d : ℚ) (hp0 : 0 ≤ p) (_hd : 0 ≤ d) :
    foliageUpdate p 0 d = if 1/1000 < p then max 0 (p - d * foliageSpeed) else p := by
  have habs : |p - (0:ℚ)| = p := by
    rw [sub_zero, abs_of_nonneg hp0]
  by_cases hlt : 1/1000 < p
  · have hg : |p - (0:ℚ)| > 1/1000 := by
      rw [habs]
      exact hlt
    have hdir : ¬((0:ℚ) > p) := by linarith
    simp only [foliageUpdate, if_pos hg, if_neg hdir, if_pos hlt,
      eq_false (by norm_num : (-1:ℚ) ≠ 1), false_and, if_false,
      eq_self_iff_true, true_and]
    rcases lt_or_le (p + -1 * d * foliageSpeed) 0 with hc | hc
    · rw [if_pos hc, max_eq_left (by linarith)]
    · rw [if_neg (not_lt.mpr hc), max_eq_right (by linarith)]
      ring
  · have hg : ¬(|p - (0:ℚ)| > 1/1000) := by
      rw [habs]
      exact not_lt.mpr (by linarith)
    simp only [foliageUpdate, if_neg hg, if_neg hlt]

lemma ornamentsUpdate_step (q u d : ℚ) (h : 1/1000 < |u - q|) :
    ornamentsUpdate q u d = q + (u - q) * d := by
  simp only [ornamentsUpdate, ornamentsSpeed, mul_one, if_pos h]

/-- C3 (amended): the Foliage per-frame update equals the spec's
epsilon-snap, sign-step and clamp rule for progress in [0,1] and target
in {0,1} at speed 1.5; the Ornaments per-frame update instead steps by
`(target - progress) * delta`, proportional to the remaining distance. -/
theorem C3_theorem (p target delta : ℚ) (hp0 : 0 ≤ p) (hp1 : p ≤ 1)
    (ht : target = 0 ∨ target = 1) (hd : 0 ≤ delta) :
    foliageUpdate p target delta = specUpdate p target delta foliageSpeed
    ∧ (∀ q u d : ℚ, 1/1000 < |u - q| → ornamentsUpdate q u d = q + (u - q) * d) := by
  refine ⟨?_, fun q u d h => ornamentsUpdate_step q u d h⟩
  have hds : (0:ℚ) ≤ delta * foliageSpeed := mul_nonneg hd foliageSpeed_nonneg
  rcases ht with rfl | rfl
  · rw [foliageUpdate_target_zero p delta hp0 hd]
    by_cases hlt : 1/1000 < p
    · have hg : ¬(|(0:ℚ) - p| ≤ 1/1000) := by
        rw [zero_sub, abs_neg, abs_of_nonneg hp0]
        linarith
      have hdir1 : ¬(p < (0:ℚ)) := by linarith
      have hdir2 : (0:ℚ) < p := by linarith
      simp only [specUpdate, if_neg hg, if_neg hdir1, if_pos hdir2, if_pos hlt]
      have he : p + -1 * delta * foliageSpeed = p - delta * foliageSpeed := by ring
      rw [he, min_eq_right (max_le (by norm_num) (by linarith))]
    · have hg : |(0:ℚ) - p| ≤ 1/1000 := by
        rw [zero_sub, abs_neg, abs_of_nonneg hp0]
        linarith
      simp only [specUpdate, if_pos hg, if_neg hlt]
  · rw [foliageUpdate_target_one p delta hp1 hd]
    by_cases hlt : p < 999/1000
    · have hg : ¬(|(1:ℚ) - p| ≤ 1/1000) := by
        rw [abs_of_nonneg (by linarith)]
        linarith
      have hdir : p < (1:ℚ) := by linarith
      simp only [specUpdate, if_neg hg, if_pos hdir, if_pos hlt]
      have he : p + 1 * delta * foliageSpeed = p + delta * foliageSpeed := by ring
      rw [he, max_eq_right (by linarith)]
    · have hg : |(1:ℚ) - p| ≤ 1/1000 := by
        rw [abs_of_nonneg (by linarith)]
        linarith
      simp only [specUpdate, if_pos hg, if_neg hlt]

/-- C3 counterexample: one Ornaments update at progress 1/2 toward
target 1 with delta 1/10 yields 11/20, not the 3/5 the spec's
sign-step rule produces, so the step depends on the remaining distance. -/
theorem C3_counterexample :
    ornamentsUpdate (1/2) 1 (1/10) = 11/20
    ∧ specUpdate (1/2) 1 (1/10) ornamentsSpeed = 3/5
    ∧ ornamentsUpdate (1/2) 1 (1/10) ≠ specUpdate (1/2) 1 (1/10) ornamentsSpeed := by
  have hab : |(1:ℚ) - 1/2| = 1/2 := by
    rw [abs_of_nonneg (by norm_num)]
    norm_num
  have h1 : ornamentsUpdate (1/2) 1 (1/10) = 11/20 := by
    rw [ornamentsUpdate, if_pos (by rw [hab]; norm_num)]
    norm_num [ornamentsSpeed]
  have h2 : specUpdate (1/2) 1 (1/10) ornamentsSpeed = 3/5 := by
    rw [specUpdate, if_neg (by rw [hab]; norm_num)]
    rw [if_pos (by norm_num : (1/2:ℚ) < 1)]
    norm_num [ornamentsSpeed]
  refine ⟨h1, h2, ?_⟩
  rw [h1, h2]
  norm_num

/-- C3 witness: at progress 1/2, target 1, delta 1/10 the Foliage
update agrees with the spec rule. -/
theorem C3_witness :
    foliageUpdate (1/2) 1 (1/10) = specUpdate (1/2) 1 (1/10) foliageSpeed :=
  (C3_theorem (1/2) 1 (1/10) (by norm_num) (by norm_num) (Or.inr rfl) (by norm_num)).1

lemma foliageRun_bounds : ∀ (ds : List ℚ) (p : ℚ), (∀ x ∈ ds, 0 ≤ x) → 0 ≤ p → p ≤ 1 →
    min (999/1000) (p + foliageSpeed * ds.sum) ≤ foliageRun p ds ∧ foliageRun p ds ≤ 1 := by
  intro ds
  induction ds with
  | nil =>
    intro p _ hp0 hp1
    refine ⟨?_, hp1⟩
    simp only [foliageRun, List.sum_nil, mul_zero, add_zero]
    exact min_le_right _ _
  | cons d rest ih =>
    intro p hnn hp0 hp1
    have hd : 0 ≤ d := hnn d (List.mem_cons_self d rest)
    have hrest : ∀ x ∈ rest, 0 ≤ x := fun x hx => hnn x (List.mem_cons_of_mem _ hx)
    have hsum : 0 ≤ rest.sum := List.sum_nonneg hrest
    have hform : foliageUpdate p 1 d
        = if p < 999/1000 then min 1 (p + d * foliageSpeed) else p :=
      foliageUpdate_target_one p d hp1 hd
    have hds : (0:ℚ) ≤ d * foliageSpeed := mul_nonneg hd foliageSpeed_nonneg
    have hp'0 : 0 ≤ foliageUpdate p 1 d := by
      rw [hform]
      split_ifs
      · exact le_min (by norm_num) (by linarith)
      · exact hp0
    have hp'1 : foliageUpdate p 1 d ≤ 1 := by
      rw [hform]
      split_ifs
      · exact min_le_left _ _
      · exact hp1
    obtain ⟨ih1, ih2⟩ := ih (foliageUpdate p 1 d) hrest hp'0 hp'1
    have hrun : foliageRun p (d :: rest) = foliageRun (foliageUpdate p 1 d) rest := rfl
    rw [hrun, List.sum_cons]
    refine ⟨?_, ih2⟩
    have hfs : (0:ℚ) ≤ foliageSpeed * rest.sum := mul_nonneg foliageSpeed_nonneg hsum
    by_cases hplt : p < 999/1000
    · rcases le_or_lt (p + d * foliageSpeed) 1 with hc | hc
      · have hpe : foliageUpdate p 1 d = p + d * foliageSpeed := by
          rw [hform, if_pos hplt, min_eq_right hc]
        have heq : p + foliageSpeed * (d + rest.sum)
            = foliageUpdate p 1 d + foliageSpeed * rest.sum := by
          rw [hpe]
          ring
        rw [heq]
        exact ih1
      · have hpe : foliageUpdate p 1 d = 1 := by
          rw [hform, if_pos hplt, min_eq_left (le_of_lt hc)]
        have h9 : (999/1000:ℚ) ≤ foliageUpdate p 1 d + foliageSpeed * rest.sum := by
          rw [hpe]
          linarith
        rw [min_eq_left h9] at ih1
        exact le_trans (min_le_left _ _) ih1
    · have hpe : foliageUpdate p 1 d = p := by
        rw [hform, if_neg hplt]
      have h9 : (999/1000:ℚ) ≤ foliageUpdate p 1 d + foliageSpeed * rest.sum := by
        rw [hpe]
        linarith
      rw [min_eq_left h9] at ih1
      exact le_trans (min_le_left _ _) ih1

/-- C7 (amended): for the Foliage controller, with target 0 every update
is monotone toward 0, stays nonnegative, and moves at most
`delta * speed` per frame; toward target 1 the per-frame change is at
most `delta * speed`; from progress 0 toward target 1 the progress is
within 0.001 of 1 once the accumulated `delta * speed` reaches 1, never
exceeding 1; and once within 0.001 of 1 an update toward 1 is a no-op,
so progress stays there. The Ornaments controller does not satisfy this
(see the counterexample). -/
theorem C7_theorem :
    (∀ p d : ℚ, 0 ≤ p → p ≤ 1 → 0 ≤ d →
      foliageUpdate p 0 d ≤ p ∧ 0 ≤ foliageUpdate p 0 d
      ∧ p - foliageUpdate p 0 d ≤ d * foliageSpeed)
    ∧ (∀ p d : ℚ, p ≤ 1 → 0 ≤ d → |foliageUpdate p 1 d - p| ≤ d * foliageSpeed)
    ∧ (∀ ds : List ℚ, (∀ x ∈ ds, 0 ≤ x) → 1 ≤ foliageSpeed * ds.sum →
      1 - 1/1000 ≤ foliageRun 0 ds ∧ foliageRun 0 ds ≤ 1)
    ∧ (∀ p d : ℚ, 1 - 1/1000 ≤ p → p ≤ 1 → foliageUpdate p 1 d = p) := by
  refine ⟨?_, ?_, ?_, ?_⟩
  · intro p d hp0 hp1 hd
    have hds : (0:ℚ) ≤ d * foliageSpeed := mul_nonneg hd foliageSpeed_nonneg
    rw [foliageUpdate_target_zero p d hp0 hd]
    split_ifs
    · exact ⟨max_le hp0 (by linarith), le_max_left _ _,
        by linarith [le_max_right (0:ℚ) (p - d * foliageSpeed)]⟩
    · exact ⟨le_refl p, hp0, by linarith⟩
  · intro p d hp1 hd
    have hds : (0:ℚ) ≤ d * foliageSpeed := mul_nonneg hd foliageSpeed_nonneg
    rw [foliageUpdate_target_one p d hp1 hd]
    split_ifs with h
    · have hmge : p ≤ min 1 (p + d * foliageSpeed) := le_min hp1 (by linarith)
      rw [abs_of_nonneg (by linarith)]
      linarith [min_le_right (1:ℚ) (p + d * foliageSpeed)]
    · simpa using hds
  · intro ds hnn hsum
    obtain ⟨hlo, hhi⟩ := foliageRun_bounds ds 0 hnn le_rfl (by norm_num)
    have h9 : (999/1000:ℚ) ≤ 0 + foliageSpeed * ds.sum := by linarith
    rw [min_eq_left h9] at hlo
    exact ⟨by linarith, hhi⟩
  · intro p d h1 h2
    have hg : ¬(|p - (1:ℚ)| > 1/1000) := by
      rw [abs_of_nonpos (by linarith : p - (1:ℚ) ≤ 0)]
      exact not_lt.mpr (by linarith)
    simp only [foliageUpdate, if_neg hg]

/-- C7 counterexample: one Ornaments update at progress 1/2 toward
target 0 with delta 3 yields -1: the distance to the target grows from
1/2 to 1 and progress leaves [0,1], so the Ornaments controller is not
monotone toward the target with per-frame change bounded as claimed. -/
theorem C7_counterexample :
    ornamentsUpdate (1/2) 0 3 = -1
    ∧ |ornamentsUpdate (1/2) 0 3 - 0| = 1
    ∧ |(1/2:ℚ) - 0| = 1/2
    ∧ ¬(|ornamentsUpdate (1/2) 0 3 - 0| ≤ |(1/2:ℚ) - 0|) := by
  have hab : |(0:ℚ) - 1/2| = 1/2 := by
    rw [zero_sub, abs_neg, abs_of_nonneg (by norm_num)]
  have h1 : ornamentsUpdate (1/2) 0 3 = -1 := by
    rw [ornamentsUpdate, if_pos (by rw [hab]; norm_num)]
    norm_num [ornamentsSpeed]
  refine ⟨h1, ?_, ?_, ?_⟩
  · rw [h1]
    norm_num
  · rw [abs_of_nonneg (by norm_num : (0:ℚ) ≤ 1/2 - 0)]
    norm_num
  · rw [h1, abs_of_nonneg (by norm_num : (0:ℚ) ≤ 1/2 - 0)]
    norm_num

/-- C7 witness: a Foliage update toward 0 from progress 1/2 does not
increase progress, and a run of one frame with delta 1 from progress 0
lands within 0.001 of 1. -/
theorem C7_witness :
    foliageUpdate (1/2) 0 (1/10) ≤ 1/2
    ∧ 1 - 1/1000 ≤ foliageRun 0 [1] := by
  constructor
  · exact (C7_theorem.1 (1/2) (1/10) (by norm_num) (by norm_num) (by norm_num)).1
  · refine (C7_theorem.2.2.1 [1] ?_ ?_).1
    · intro x hx
      rw [List.mem_singleton] at hx
      rw [hx]
      norm_num
    · simp only [List.sum_cons, List.sum_nil, add_zero]
      norm_num [foliageSpeed]

end Luoluo
